import Mathlib

/-!
Verification of the ARCS `uls-importer` pipeline (`src/importer/import_uls.py`)
against its natural-language specification.

The development shallowly embeds the parts of the importer the claims are
about: the JSON state-file helpers (`_load_json`, `read_state_namespace`,
`merge_state_namespace`), the remote-metadata probe (`head_remote_meta`),
the skip decision (`should_skip_import`), the staging-load field mappings
(`load_local_infile`), the provenance persistence (`persist`) and the
`main` control flow (`run`).  Effectful outcomes (network, filesystem,
database) are passed in explicitly as an environment, and each Python
function becomes a total Lean function over that environment.
-/

namespace ARCS

/-! ## String helpers

Python's `str.strip()` and string comparison are modelled by structural
functions on the character data so that every definition evaluates inside
the kernel. -/

/-- Python `str.strip()`: drop whitespace from both ends. -/
def pyStrip (s : String) : String :=
  String.mk (((s.data.dropWhile Char.isWhitespace).reverse.dropWhile
    Char.isWhitespace).reverse)

/-- Lexicographic comparison of character lists by code point. -/
def leChars : List Char → List Char → Bool
  | [], _ => true
  | _ :: _, [] => false
  | a :: as, b :: bs =>
    if a.toNat < b.toNat then true
    else if a.toNat = b.toNat then leChars as bs
    else false

/-- Lexicographic order on strings by code point; on ISO-8601 UTC
timestamps of equal shape this coincides with chronological order. -/
def strLe (a b : String) : Bool := leChars a.data b.data

/-! ## JSON model (state file contents)

The importer stores its provenance in a JSON file.  `JValue` models a parsed
JSON value; a Python `dict` is modelled as an association list with unique
keys preserved in insertion order (the operations below mirror Python `dict`
semantics: first-occurrence lookup, in-place replacement on assignment). -/

inductive JValue where
  | null
  | bool (b : Bool)
  | num (n : Int)
  | str (s : String)
  | arr (xs : List JValue)
  | obj (kvs : List (String × JValue))

/-- Whether a JSON value is an object (Python `isinstance(v, dict)`). -/
def JValue.isObj : JValue → Bool
  | .obj _ => true
  | _ => false

/-- Python `dict.get(k)` on an association-list dict: first matching key. -/
def dget : List (String × JValue) → String → Option JValue
  | [], _ => none
  | p :: rest, k => if p.1 = k then some p.2 else dget rest k

/-- Whether the dict has the key (Python `k in d`). -/
def hasKey : List (String × JValue) → String → Bool
  | [], _ => false
  | p :: rest, k => p.1 == k || hasKey rest k

/-- Python `d[k] = v`: replace in place when the key exists, else append. -/
def dset (l : List (String × JValue)) (k : String) (v : JValue) :
    List (String × JValue) :=
  if hasKey l k then l.map (fun p => if p.1 = k then (k, v) else p)
  else l ++ [(k, v)]

/-- Python `d.update(upd)`: assign each update pair in order. -/
def dupdate (l upd : List (String × JValue)) : List (String × JValue) :=
  upd.foldl (fun acc p => dset acc p.1 p.2) l

/-- Possible on-disk contents of a JSON state file, as the importer's
`_load_json` distinguishes them: the file may be absent, unreadable
(`read_text` raises), hold only whitespace, hold text that is not valid
JSON (`json.loads` raises), or hold a parsed JSON value. -/
inductive FileContent where
  | missing
  | unreadable
  | textEmpty
  | malformed
  | json (v : JValue)

/-- `_load_json` (import_uls.py:130): returns the parsed object, and `{}`
when the file is missing, empty, unreadable, malformed, or parses to a
non-object JSON value. -/
def load_json : FileContent → List (String × JValue)
  | .missing => []
  | .unreadable => []
  | .textEmpty => []
  | .malformed => []
  | .json (.obj kvs) => kvs
  | .json _ => []

/-- The namespace's dict inside a loaded state: its value when it is an
object, else `{}` (`val if isinstance(val, dict) else {}`). -/
def nsDictOf (state : List (String × JValue)) (ns : String) :
    List (String × JValue) :=
  match dget state ns with
  | some (.obj kvs) => kvs
  | _ => []

/-- `read_state_namespace` (import_uls.py:150): the namespace's value when
it is an object, else `{}`. -/
def read_state_namespace (fc : FileContent) (ns : String) :
    List (String × JValue) :=
  nsDictOf (load_json fc) ns

/-- First half of `merge_state_namespace`: reset the namespace to `{}`
when it is absent or not an object
(`if ns not in state or not isinstance(state.get(ns), dict)`). -/
def mergedStateBase (state : List (String × JValue)) (ns : String) :
    List (String × JValue) :=
  match dget state ns with
  | some (.obj _) => state
  | _ => dset state ns (.obj [])

/-- `merge_state_namespace` (import_uls.py:156): load the state, reset the
namespace to `{}` when absent or not an object, apply the updates to the
namespace dict (`state[ns].update(updates)`), and return the whole state
that is then written back atomically. -/
def merge_state_namespace (fc : FileContent) (ns : String)
    (updates : List (String × JValue)) : List (String × JValue) :=
  dset (mergedStateBase (load_json fc) ns) ns
    (.obj (dupdate (nsDictOf (mergedStateBase (load_json fc) ns) ns) updates))

/-! ## Remote metadata probe -/

/-- `RemoteMeta` (import_uls.py:175): dataclass with zero-value defaults. -/
structure RemoteMeta where
  etag : String := ""
  last_modified : String := ""
  content_length : Int := 0

/-- Outcome of the HTTP HEAD request issued by `head_remote_meta`: either
the request raises (network or response-parse failure) or it yields a
status code and the raw `ETag` / `Last-Modified` / `Content-Length`
headers (absent headers are `none`). -/
inductive HeadOutcome where
  | failure
  | response (status : Nat) (etag : Option String)
      (last_modified : Option String) (content_length : Option String)

/-- `int(clen) if clen else 0`, with a parse failure caught and turned
into 0 (import_uls.py:190). -/
def parse_content_length : Option String → Int
  | none => 0
  | some s => if s = "" then 0 else (s.toInt?).getD 0

/-- `head_remote_meta` (import_uls.py:182): zero-value result on any
raised error or on a status outside `[200, 400)`; otherwise the stripped
header values. -/
def head_remote_meta : HeadOutcome → RemoteMeta
  | .failure => {}
  | .response status etag last_mod clen =>
    if status < 200 || status ≥ 400 then {}
    else
      { etag := pyStrip (etag.getD ""),
        last_modified := pyStrip (last_mod.getD ""),
        content_length := parse_content_length clen }

/-! ## Prior state and the skip decision -/

/-- The prior provenance record as read back by the importer
(`read_state_namespace` / marker fallback, import_uls.py:584).  A field the
record does not contain is `none` (Python `dict.get` returning `None`); the
importer itself only ever writes strings (and an integer byte count) into
these fields, which is what the field types record. -/
structure PriorState where
  source_url : Option String := none
  source_etag : Option String := none
  source_last_modified_at : Option String := none
  source_zip_sha256 : Option String := none
  source_zip_bytes : Option Nat := none
  local_data_updated_at : Option String := none

/-- The guarded digest comparison inside `should_skip_import`
(import_uls.py:236): compare the computed local digest when the hash
computation succeeded; a raised exception is swallowed (no match). -/
def sha_matches (local_sha : Option String) (prior_sha : String) : Bool :=
  match local_sha with
  | some s => s == prior_sha
  | none => false

/-- `should_skip_import` (import_uls.py:207).  `zip_exists` is
`zip_path.exists()`; `local_sha` is the outcome of `sha256_file zip_path`
(`none` when the hash computation raises, in which case the exception is
swallowed and no skip happens). -/
def should_skip_import (skip_if_unchanged : Bool) (remote : RemoteMeta)
    (zip_exists : Bool) (local_sha : Option String) (prior : PriorState) :
    Bool × String :=
  if !skip_if_unchanged then (false, "skip-if-unchanged disabled")
  else
    let prior_etag := pyStrip (prior.source_etag.getD "")
    let prior_lm := pyStrip (prior.source_last_modified_at.getD "")
    let prior_sha := pyStrip (prior.source_zip_sha256.getD "")
    if remote.etag != "" && prior_etag != "" && remote.etag == prior_etag then
      (true, "etag match")
    else if remote.last_modified != "" && prior_lm != "" &&
        remote.last_modified == prior_lm then
      (true, "last-modified match")
    else if zip_exists && prior_sha != "" &&
        sha_matches local_sha prior_sha then
      (true, "local zip sha256 match")
    else (false, "no unchanged signal matched")

/-- Modelled from the words of claim C2, for comparison with
`should_skip_import`: the same first-match-wins order, but with EXACT
string equality against the stored prior values (no normalization), an
empty or missing value on either side never counting as a match. -/
def claim_skip_decision (skip_if_unchanged : Bool) (remote : RemoteMeta)
    (zip_exists : Bool) (local_sha : Option String) (prior : PriorState) :
    Bool :=
  if !skip_if_unchanged then false
  else if remote.etag != "" && prior.source_etag.getD "" != "" &&
      remote.etag == prior.source_etag.getD "" then true
  else if remote.last_modified != "" &&
      prior.source_last_modified_at.getD "" != "" &&
      remote.last_modified == prior.source_last_modified_at.getD "" then true
  else if zip_exists && prior.source_zip_sha256.getD "" != "" &&
      sha_matches local_sha (prior.source_zip_sha256.getD "") then true
  else false

/-- The stored prior record with its three comparison fields coerced to
strings and stripped of surrounding whitespace, exactly as
`should_skip_import` reads them (`str(prior.get(...) or "").strip()`). -/
def stripPrior (p : PriorState) : PriorState :=
  { p with
    source_etag := some (pyStrip (p.source_etag.getD "")),
    source_last_modified_at :=
      some (pyStrip (p.source_last_modified_at.getD "")),
    source_zip_sha256 := some (pyStrip (p.source_zip_sha256.getD "")) }

/-! ## Provenance persistence -/

/-- The update payload built by `persist` (import_uls.py:618), one field
per key of the `updates` dict. -/
structure Record where
  last_run_started_at : String
  last_run_finished_at : String
  last_run_result : String
  last_run_skip_reason : String
  local_data_updated_at : String
  source_url : String
  source_etag : String
  source_last_modified_at : String
  source_zip_sha256 : String
  source_zip_bytes : Nat

/-- Python `a or b` for strings: `b` when `a` is empty. -/
def strOr (a b : String) : String := if a = "" then b else a

/-- Python `a or b` for the byte count: `b` when `a` is zero. -/
def natOr (a b : Nat) : Nat := if a = 0 then b else a

/-- `persist` (import_uls.py:593): build the update payload written to the
canonical state namespace and the marker file. -/
def persist (prior : PriorState) (run_started run_finished url : String)
    (run_result run_skip_reason : String) (remote : Option RemoteMeta)
    (source_zip_sha256 : String) (source_zip_bytes : Nat)
    (did_update_local_data : Bool) : Record :=
  let rm := remote.getD {}
  let prior_local_updated := pyStrip (prior.local_data_updated_at.getD "")
  let local_updated :=
    if did_update_local_data then run_finished else prior_local_updated
  { last_run_started_at := run_started,
    last_run_finished_at := run_finished,
    last_run_result := run_result,
    last_run_skip_reason := run_skip_reason,
    local_data_updated_at := local_updated,
    source_url := url,
    source_etag := strOr rm.etag (prior.source_etag.getD ""),
    source_last_modified_at :=
      strOr rm.last_modified (prior.source_last_modified_at.getD ""),
    source_zip_sha256 :=
      strOr source_zip_sha256 (prior.source_zip_sha256.getD ""),
    source_zip_bytes := natOr source_zip_bytes (prior.source_zip_bytes.getD 0) }

/-! ## Staged loading (`load_local_infile`, import_uls.py:340)

A source row is the list of pipe-separated fields of one line.  `fld row i`
is the 1-based field `@fi`; `LOAD DATA` binds a missing trailing field as
empty.  The `stg_hd` and `stg_am` branches map selected positions through
`NULLIF(@fi,'')`; the generic branch (used for `stg_en`) loads the named
columns directly, so a column holds exactly the raw field text. -/

/-- SQL `NULLIF(x, '')`: absent for the empty string. -/
def nullif (s : String) : Option String := if s = "" then none else some s

/-- 1-based positional field of a source row. -/
def fld (row : List String) (i : Nat) : String := row.getD (i - 1) ""

/-- A row of staging table `stg_hd` after load: only the mapped positions
{1,2,5,6,8,9,10}. -/
structure StgHdRow where
  record_type : Option String
  unique_system_identifier : Option String
  call_sign : Option String
  license_status : Option String
  grant_date : Option String
  expired_date : Option String
  last_action_date : Option String

/-- The `stg_hd` branch of `load_local_infile` (import_uls.py:345): each
mapped column is `NULLIF(@fi,'')`. -/
def load_stg_hd_row (row : List String) : StgHdRow :=
  { record_type := nullif (fld row 1),
    unique_system_identifier := nullif (fld row 2),
    call_sign := nullif (fld row 5),
    license_status := nullif (fld row 6),
    grant_date := nullif (fld row 8),
    expired_date := nullif (fld row 9),
    last_action_date := nullif (fld row 10) }

/-- A row of staging table `stg_am` after load: mapped positions {1..6}. -/
structure StgAmRow where
  record_type : Option String
  unique_system_identifier : Option String
  uls_file_number : Option String
  ebf_number : Option String
  call_sign : Option String
  operator_class : Option String

/-- The `stg_am` branch of `load_local_infile` (import_uls.py:367): each
mapped column is `NULLIF(@fi,'')`. -/
def load_stg_am_row (row : List String) : StgAmRow :=
  { record_type := nullif (fld row 1),
    unique_system_identifier := nullif (fld row 2),
    uls_file_number := nullif (fld row 3),
    ebf_number := nullif (fld row 4),
    call_sign := nullif (fld row 5),
    operator_class := nullif (fld row 6) }

/-- A row of staging table `stg_en` after load: the full named column list
passed by `main` (import_uls.py:697). -/
structure StgEnRow where
  record_type : Option String
  unique_system_identifier : Option String
  uls_file_number : Option String
  ebf_number : Option String
  call_sign : Option String
  entity_type : Option String
  licensee_id : Option String
  entity_name : Option String
  first_name : Option String
  mi : Option String
  last_name : Option String
  suffix : Option String
  phone : Option String
  fax : Option String
  email : Option String
  street_address : Option String
  city : Option String
  state : Option String
  zip_code : Option String
  po_box : Option String
  attention_line : Option String
  sgin : Option String
  frn : Option String

/-- The generic branch of `load_local_infile` (import_uls.py:388), used
for `stg_en`: a plain column list with no `SET` clause, so every column
stores the raw field text — an empty source field is stored as the empty
string, not as an absent value. -/
def load_stg_en_row (row : List String) : StgEnRow :=
  { record_type := some (fld row 1),
    unique_system_identifier := some (fld row 2),
    uls_file_number := some (fld row 3),
    ebf_number := some (fld row 4),
    call_sign := some (fld row 5),
    entity_type := some (fld row 6),
    licensee_id := some (fld row 7),
    entity_name := some (fld row 8),
    first_name := some (fld row 9),
    mi := some (fld row 10),
    last_name := some (fld row 11),
    suffix := some (fld row 12),
    phone := some (fld row 13),
    fax := some (fld row 14),
    email := some (fld row 15),
    street_address := some (fld row 16),
    city := some (fld row 17),
    state := some (fld row 18),
    zip_code := some (fld row 19),
    po_box := some (fld row 20),
    attention_line := some (fld row 21),
    sgin := some (fld row 22),
    frn := some (fld row 23) }

/-! ## The main workflow -/

/-- Environment of one invocation of `main` (import_uls.py:569): the CLI
flags, the configured URL, and the outcome of every effectful step.
`zip_exceeds_size_floor` records whether a previously downloaded artifact
is present at the destination above any size floor at fetch time; `run`
never reads it because `download_zip` (import_uls.py:250) has no such
check. -/
structure RunEnv where
  lock_flag : Bool
  skip_if_unchanged_flag : Bool
  url : String
  lock_acquired : Bool
  head : HeadOutcome
  zip_exists : Bool
  zip_exceeds_size_floor : Bool
  local_sha : Option String
  schema_ok : Bool
  download_ok : Bool
  download_sha256 : String
  download_bytes : Nat
  extract_ok : Bool
  dat_files_present : Bool
  load_ok : Bool
  merge_ok : Bool
  verify_ok : Bool
  run_started : String
  run_finished : String

/-- Observable outcome of one invocation: the process exit code, the
update payload persisted by `persist` (`none` when `persist` was never
called, leaving both provenance files untouched), and which pipeline steps
were started. -/
structure RunResult where
  exitCode : Nat
  record : Option Record
  did_schema : Bool
  did_download : Bool
  did_load : Bool
  did_merge : Bool

/-- `remote = head_remote_meta(FCC_AMAT_URL)` as computed once by `main`
(import_uls.py:659). -/
def remoteOf (env : RunEnv) : RemoteMeta := head_remote_meta env.head

/-- `skip, reason = should_skip_import(...)` as computed by `main`
(import_uls.py:665). -/
def skipOf (env : RunEnv) (prior : PriorState) : Bool × String :=
  should_skip_import env.skip_if_unchanged_flag (remoteOf env)
    env.zip_exists env.local_sha prior

/-- `main` (import_uls.py:647): lock gate, HEAD probe, skip decision, then
schema / download / extract / load / merge / verification.  The `try`
block has no `except` clause, so a failing step propagates its exception:
the run exits non-zero (`SystemExit` with a message) and `persist` is
never reached. -/
def run (env : RunEnv) (prior : PriorState) : RunResult :=
  if env.lock_flag && !env.lock_acquired then
    { exitCode := 0,
      record := some (persist prior env.run_started env.run_finished env.url
        "skipped_locked" "db lock held" none "" 0 false),
      did_schema := false, did_download := false,
      did_load := false, did_merge := false }
  else
    if (skipOf env prior).1 then
      { exitCode := 0,
        record := some (persist prior env.run_started env.run_finished env.url
          "skipped_unchanged" (skipOf env prior).2 (some (remoteOf env)) "" 0
          false),
        did_schema := false, did_download := false,
        did_load := false, did_merge := false }
    else if !env.schema_ok then
      { exitCode := 1, record := none, did_schema := true,
        did_download := false, did_load := false, did_merge := false }
    else if !env.download_ok then
      { exitCode := 1, record := none, did_schema := true,
        did_download := true, did_load := false, did_merge := false }
    else if !env.extract_ok then
      { exitCode := 1, record := none, did_schema := true,
        did_download := true, did_load := false, did_merge := false }
    else if !env.dat_files_present then
      { exitCode := 1, record := none, did_schema := true,
        did_download := true, did_load := false, did_merge := false }
    else if !env.load_ok then
      { exitCode := 1, record := none, did_schema := true,
        did_download := true, did_load := true, did_merge := false }
    else if !env.merge_ok then
      { exitCode := 1, record := none, did_schema := true,
        did_download := true, did_load := true, did_merge := true }
    else if !env.verify_ok then
      { exitCode := 1, record := none, did_schema := true,
        did_download := true, did_load := true, did_merge := true }
    else
      { exitCode := 0,
        record := some (persist prior env.run_started env.run_finished env.url
          "success" "" (some (remoteOf env)) env.download_sha256
          env.download_bytes true),
        did_schema := true, did_download := true,
        did_load := true, did_merge := true }

/-- The prior state a later run reads back after this run persisted `r`
(both the canonical namespace and the marker hold exactly the update
payload). -/
def priorOfRecord (r : Record) : PriorState :=
  { source_url := some r.source_url,
    source_etag := some r.source_etag,
    source_last_modified_at := some r.source_last_modified_at,
    source_zip_sha256 := some r.source_zip_sha256,
    source_zip_bytes := some r.source_zip_bytes,
    local_data_updated_at := some r.local_data_updated_at }

/-- State transition of the provenance record across one run: unchanged
when the run persisted nothing. -/
def stepState (s : PriorState) (env : RunEnv) : PriorState :=
  match (run env s).record with
  | some r => priorOfRecord r
  | none => s

/-- State after a whole sequence of runs. -/
def runTrace : PriorState → List RunEnv → PriorState
  | s, [] => s
  | s, e :: es => runTrace (stepState s e) es

/-- The stored `local_data_updated_at` as `persist` reads it back:
`str(prior_state.get("local_data_updated_at") or "").strip()`. -/
def localStr (s : PriorState) : String :=
  pyStrip (s.local_data_updated_at.getD "")

/-- The stored `local_data_updated_at` carries no surrounding whitespace
(true of every value the importer itself writes: ISO-8601 timestamps and
the empty string). -/
def TrimmedLocal (s : PriorState) : Prop :=
  pyStrip (s.local_data_updated_at.getD "") = s.local_data_updated_at.getD ""

/-- The wall clock never runs backwards along a sequence of runs: each
run's finish timestamp is at least the stored freshness timestamp it
starts from. -/
def ClockOK : PriorState → List RunEnv → Prop
  | _, [] => True
  | s, e :: es =>
    strLe (localStr s) e.run_finished = true ∧ ClockOK (stepState s e) es

/-- The run reaches the pipeline steps: neither the lock gate nor the
change detector ended the run early. -/
def reachesSteps (env : RunEnv) (prior : PriorState) : Prop :=
  (env.lock_flag && !env.lock_acquired) = false ∧
  (skipOf env prior).1 = false

/-- Some pipeline step among schema application, download, extraction,
staged load, merge and verification fails. -/
def someStepFails (env : RunEnv) : Prop :=
  env.schema_ok = false ∨ env.download_ok = false ∨ env.extract_ok = false ∨
  env.dat_files_present = false ∨ env.load_ok = false ∨
  env.merge_ok = false ∨ env.verify_ok = false

/-- How one run may move the stored `local_data_updated_at`: a run that
persists a non-`success` result, or persists nothing at all, carries the
value forward unchanged; the value never decreases; and whenever the value
moved, the run's persisted result was `success`. -/
def MonotoneStepFacts (t : PriorState) (e : RunEnv) : Prop :=
  (∀ r, (run e t).record = some r → r.last_run_result ≠ "success" →
    localStr (stepState t e) = localStr t) ∧
  ((run e t).record = none → localStr (stepState t e) = localStr t) ∧
  (strLe (localStr t) e.run_finished = true →
    strLe (localStr t) (localStr (stepState t e)) = true) ∧
  (localStr (stepState t e) ≠ localStr t →
    ∃ r, (run e t).record = some r ∧ r.last_run_result = "success")

/-! ## Concrete inputs for witnesses and counterexamples -/

/-- A fully healthy environment: lock enabled and acquired, change
detection off, every pipeline step succeeds. -/
def envOk : RunEnv where
  lock_flag := true
  skip_if_unchanged_flag := false
  url := "https://data.fcc.gov/download/pub/uls/complete/l_amat.zip"
  lock_acquired := true
  head := .response 200 (some "W/5") (some "Mon, 01 Jan 2024 00:00:00 GMT")
    none
  zip_exists := false
  zip_exceeds_size_floor := false
  local_sha := none
  schema_ok := true
  download_ok := true
  download_sha256 := "d41d8cd9"
  download_bytes := 123456
  extract_ok := true
  dat_files_present := true
  load_ok := true
  merge_ok := true
  verify_ok := true
  run_started := "2024-01-02T03:04:05+00:00"
  run_finished := "2024-01-02T03:09:05+00:00"

/-- Environment of a run whose schema application fails. -/
def envSchemaFail : RunEnv := { envOk with schema_ok := false }

/-- Environment of a run that finds the lock already held. -/
def envLockHeld : RunEnv := { envOk with lock_acquired := false }

/-- Environment of a healthy run that still has a complete previous
artifact on disk at fetch time. -/
def envZipPresent : RunEnv :=
  { envOk with zip_exists := true, zip_exceeds_size_floor := true }

/-- A prior record as a previous successful run would have left it. -/
def priorKnown : PriorState where
  source_url := some "https://data.fcc.gov/download/pub/uls/complete/l_amat.zip"
  source_etag := some "W/3"
  source_last_modified_at := some "Sun, 31 Dec 2023 00:00:00 GMT"
  source_zip_sha256 := some "aabbcc"
  source_zip_bytes := some 99
  local_data_updated_at := some "2024-01-01T00:00:00+00:00"

/-- A stored prior record whose entity tag carries a trailing blank. -/
def priorPaddedEtag : PriorState := { source_etag := some "abc " }

/-- Remote metadata whose entity tag is the stripped form of
`priorPaddedEtag`'s stored tag. -/
def remotePlainEtag : RemoteMeta := { etag := "abc" }

/-- A canonical state file holding a foreign namespace and an extra key
inside the importer's namespace. -/
def stateFileKnown : FileContent :=
  .json (.obj [("other_ns", .num 7),
    ("uls_import", .obj [("extra_key", .str "keep"),
      ("last_run_result", .str "old")])])

/-- An update payload touching only `last_run_result`. -/
def updatesKnown : List (String × JValue) :=
  [("last_run_result", .str "success")]

/-- An entity (`EN.dat`) source row whose `entity_name` field (position 8)
is empty. -/
def enRowEmptyName : List String :=
  ["EN", "4242", "", "", "K0ABC", "L", "L0042", "", "JOHN", "Q", "DOE", "",
   "", "", "", "1 MAIN ST", "SPRINGFIELD", "MO", "65801", "", "", "", "7"]

end ARCS

namespace ARCS

/-! ## Helper lemmas -/

theorem leChars_refl (l : List Char) : leChars l l = true := by
  induction l with
  | nil => rfl
  | cons a as ih => simp [leChars, ih]

theorem strLe_refl (s : String) : strLe s s = true := leChars_refl s.data

theorem leChars_trans (a b c : List Char) (hab : leChars a b = true)
    (hbc : leChars b c = true) : leChars a c = true := by
  induction a generalizing b c with
  | nil => rfl
  | cons x xs ih =>
    cases b with
    | nil => simp [leChars] at hab
    | cons y ys =>
      cases c with
      | nil => simp [leChars] at hbc
      | cons z zs =>
        simp only [leChars] at hab hbc ⊢
        rcases Nat.lt_trichotomy x.toNat y.toNat with hxy | hxy | hxy
        · rcases Nat.lt_trichotomy y.toNat z.toNat with hyz | hyz | hyz
          · simp [Nat.lt_trans hxy hyz]
          · simp [hyz ▸ hxy]
          · by_cases hyz' : y.toNat < z.toNat
            · simp [Nat.lt_trans hxy hyz']
            · simp [hyz', Nat.ne_of_gt hyz] at hbc
        · rcases Nat.lt_trichotomy y.toNat z.toNat with hyz | hyz | hyz
          · simp [hxy ▸ hyz]
          · have hxz : x.toNat = z.toNat := hxy.trans hyz
            have hxy' : ¬ x.toNat < y.toNat := by omega
            have hyz' : ¬ y.toNat < z.toNat := by omega
            have hxz' : ¬ x.toNat < z.toNat := by omega
            rw [if_neg hxy', if_pos hxy] at hab
            rw [if_neg hyz', if_pos hyz] at hbc
            rw [if_neg hxz', if_pos hxz]
            exact ih ys zs hab hbc
          · simp [hyz, Nat.ne_of_gt hyz, Nat.lt_asymm hyz] at hbc
        · simp [hxy, Nat.ne_of_gt hxy, Nat.lt_asymm hxy] at hab

theorem strLe_trans (a b c : String) (hab : strLe a b = true)
    (hbc : strLe b c = true) : strLe a c = true :=
  leChars_trans a.data b.data c.data hab hbc

theorem dget_map_replace (l : List (String × JValue)) (k k' : String)
    (v : JValue) (h : k' ≠ k) :
    dget (l.map (fun p => if p.1 = k then (k, v) else p)) k' = dget l k' := by
  induction l with
  | nil => rfl
  | cons p rest ih =>
    by_cases hp : p.1 = k
    · have h1 : ¬ (k = k') := fun hk => h hk.symm
      have h2 : ¬ (p.1 = k') := by
        rw [hp]; exact h1
      simp [dget, hp, h1, h2, ih]
    · by_cases hp' : p.1 = k'
      · simp [dget, hp, hp', h]
      · simp [dget, hp, hp', ih]

theorem dget_map_replace_self (l : List (String × JValue)) (k : String)
    (v : JValue) (h : hasKey l k = true) :
    dget (l.map (fun p => if p.1 = k then (k, v) else p)) k = some v := by
  induction l with
  | nil => simp [hasKey] at h
  | cons p rest ih =>
    by_cases hp : p.1 = k
    · simp [dget, hp]
    · have hrest : hasKey rest k = true := by
        simpa [hasKey, hp] using h
      simp [dget, hp, ih hrest]

theorem dget_append_single_ne (l : List (String × JValue)) (k k' : String)
    (v : JValue) (h : k' ≠ k) :
    dget (l ++ [(k, v)]) k' = dget l k' := by
  induction l with
  | nil =>
    have hne : ¬ (k = k') := fun hk => h hk.symm
    simp [dget, hne]
  | cons p rest ih =>
    by_cases hp : p.1 = k'
    · simp [dget, hp]
    · simp [dget, hp, ih]

theorem dget_none_of_hasKey_false (l : List (String × JValue)) (k : String)
    (h : hasKey l k = false) : dget l k = none := by
  induction l with
  | nil => rfl
  | cons p rest ih =>
    have hp : ¬ p.1 = k := by
      intro hk
      simp [hasKey, hk] at h
    have hrest : hasKey rest k = false := by
      simpa [hasKey, hp] using h
    simp [dget, hp, ih hrest]

theorem dget_dset_self (l : List (String × JValue)) (k : String) (v : JValue) :
    dget (dset l k v) k = some v := by
  unfold dset
  by_cases h : hasKey l k = true
  · simp only [h, if_true]
    exact dget_map_replace_self l k v h
  · simp only [h, if_false]
    have hl : dget l k = none :=
      dget_none_of_hasKey_false l k (by simpa using h)
    induction l with
    | nil => simp [dget]
    | cons p rest ih =>
      have hp : ¬ p.1 = k := by
        intro hk
        simp [dget, hk] at hl
      have hrest : dget rest k = none := by
        simpa [dget, hp] using hl
      have hrest' : ¬ hasKey rest k = true := by
        intro hk
        simp [hasKey, hp, hk] at h
      simpa [dget, hp] using ih hrest' hrest

theorem dget_dset_ne (l : List (String × JValue)) (k k' : String) (v : JValue)
    (h : k' ≠ k) : dget (dset l k v) k' = dget l k' := by
  unfold dset
  by_cases hk : hasKey l k = true
  · simp only [hk, if_true]
    exact dget_map_replace l k k' v h
  · simp only [hk, if_false]
    exact dget_append_single_ne l k k' v h

theorem dget_dupdate_not_mem (l upd : List (String × JValue)) (k : String)
    (h : ∀ p ∈ upd, p.1 ≠ k) : dget (dupdate l upd) k = dget l k := by
  induction upd generalizing l with
  | nil => rfl
  | cons p rest ih =>
    have hp : p.1 ≠ k := h p (List.mem_cons_self p rest)
    have hrest : ∀ q ∈ rest, q.1 ≠ k := fun q hq => h q (List.mem_cons_of_mem p hq)
    calc dget (dupdate l (p :: rest)) k
        = dget (dupdate (dset l p.1 p.2) rest) k := rfl
      _ = dget (dset l p.1 p.2) k := ih _ hrest
      _ = dget l k := dget_dset_ne l p.1 k p.2 (Ne.symm hp)

theorem dget_mergedStateBase_ne (state : List (String × JValue))
    (ns k : String) (h : k ≠ ns) :
    dget (mergedStateBase state ns) k = dget state k := by
  unfold mergedStateBase
  cases hv : dget state ns with
  | none => exact dget_dset_ne _ _ _ _ h
  | some v =>
    cases v with
    | null => exact dget_dset_ne _ _ _ _ h
    | bool b => exact dget_dset_ne _ _ _ _ h
    | num n => exact dget_dset_ne _ _ _ _ h
    | str s => exact dget_dset_ne _ _ _ _ h
    | arr xs => exact dget_dset_ne _ _ _ _ h
    | obj kvs => rfl

theorem nsDictOf_mergedStateBase (state : List (String × JValue))
    (ns : String) :
    nsDictOf (mergedStateBase state ns) ns = nsDictOf state ns := by
  unfold mergedStateBase nsDictOf
  cases hv : dget state ns with
  | none => rw [dget_dset_self]
  | some v =>
    cases v with
    | null => rw [dget_dset_self]
    | bool b => rw [dget_dset_self]
    | num n => rw [dget_dset_self]
    | str s => rw [dget_dset_self]
    | arr xs => rw [dget_dset_self]
    | obj kvs => rw [hv]

theorem nullif_eq_none (s : String) : nullif s = none ↔ s = "" := by
  unfold nullif
  by_cases h : s = "" <;> simp [h]

theorem run_reached_cases (env : RunEnv) (prior : PriorState)
    (h : reachesSteps env prior) :
    ((run env prior).exitCode = 1 ∧ (run env prior).record = none) ∨
    (env.schema_ok = true ∧ env.download_ok = true ∧ env.extract_ok = true ∧
     env.dat_files_present = true ∧ env.load_ok = true ∧
     env.merge_ok = true ∧ env.verify_ok = true) := by
  obtain ⟨h1, h2⟩ := h
  by_cases hs : env.schema_ok = true
  · by_cases hd : env.download_ok = true
    · by_cases he : env.extract_ok = true
      · by_cases hf : env.dat_files_present = true
        · by_cases hl : env.load_ok = true
          · by_cases hm : env.merge_ok = true
            · by_cases hv : env.verify_ok = true
              · exact Or.inr ⟨hs, hd, he, hf, hl, hm, hv⟩
              · rw [Bool.not_eq_true] at hv
                exact Or.inl (by simp [run, h1, h2, hs, hd, he, hf, hl, hm, hv])
            · rw [Bool.not_eq_true] at hm
              exact Or.inl (by simp [run, h1, h2, hs, hd, he, hf, hl, hm])
          · rw [Bool.not_eq_true] at hl
            exact Or.inl (by simp [run, h1, h2, hs, hd, he, hf, hl])
        · rw [Bool.not_eq_true] at hf
          exact Or.inl (by simp [run, h1, h2, hs, hd, he, hf])
      · rw [Bool.not_eq_true] at he
        exact Or.inl (by simp [run, h1, h2, hs, hd, he])
    · rw [Bool.not_eq_true] at hd
      exact Or.inl (by simp [run, h1, h2, hs, hd])
  · rw [Bool.not_eq_true] at hs
    exact Or.inl (by simp [run, h1, h2, hs])

theorem run_lock_held (env : RunEnv) (prior : PriorState)
    (hg : (env.lock_flag && !env.lock_acquired) = true) :
    run env prior =
      { exitCode := 0,
        record := some (persist prior env.run_started env.run_finished env.url
          "skipped_locked" "db lock held" none "" 0 false),
        did_schema := false, did_download := false,
        did_load := false, did_merge := false } := by
  unfold run
  rw [hg]
  rfl

theorem run_skip_unchanged (env : RunEnv) (prior : PriorState)
    (hg : (env.lock_flag && !env.lock_acquired) = false)
    (hsk : (skipOf env prior).1 = true) :
    run env prior =
      { exitCode := 0,
        record := some (persist prior env.run_started env.run_finished env.url
          "skipped_unchanged" (skipOf env prior).2 (some (remoteOf env)) "" 0
          false),
        did_schema := false, did_download := false,
        did_load := false, did_merge := false } := by
  unfold run
  rw [hg, hsk]
  rfl

theorem run_success (env : RunEnv) (prior : PriorState)
    (hg : (env.lock_flag && !env.lock_acquired) = false)
    (hsk : (skipOf env prior).1 = false)
    (h1 : env.schema_ok = true) (h2 : env.download_ok = true)
    (h3 : env.extract_ok = true) (h4 : env.dat_files_present = true)
    (h5 : env.load_ok = true) (h6 : env.merge_ok = true)
    (h7 : env.verify_ok = true) :
    run env prior =
      { exitCode := 0,
        record := some (persist prior env.run_started env.run_finished env.url
          "success" "" (some (remoteOf env)) env.download_sha256
          env.download_bytes true),
        did_schema := true, did_download := true,
        did_load := true, did_merge := true } := by
  unfold run
  rw [hg, hsk, h1, h2, h3, h4, h5, h6, h7]
  rfl

theorem persist_last_run_result (prior : PriorState)
    (rs rf url rr reason : String) (remote : Option RemoteMeta)
    (sha : String) (bytes : Nat) (did : Bool) :
    (persist prior rs rf url rr reason remote sha bytes did).last_run_result
      = rr := rfl

theorem run_record_cases (env : RunEnv) (prior : PriorState) :
    (run env prior).record = none ∨
    (∃ r, (run env prior).record = some r ∧ r.last_run_result ≠ "success" ∧
      r.local_data_updated_at = localStr prior) ∨
    (∃ r, (run env prior).record = some r ∧ r.last_run_result = "success" ∧
      r.local_data_updated_at = env.run_finished) := by
  by_cases hg : (env.lock_flag && !env.lock_acquired) = true
  · rw [run_lock_held env prior hg]
    refine Or.inr (Or.inl ⟨_, rfl, ?_, rfl⟩)
    rw [persist_last_run_result]
    decide
  · rw [Bool.not_eq_true] at hg
    by_cases hsk : (skipOf env prior).1 = true
    · rw [run_skip_unchanged env prior hg hsk]
      refine Or.inr (Or.inl ⟨_, rfl, ?_, rfl⟩)
      rw [persist_last_run_result]
      decide
    · rw [Bool.not_eq_true] at hsk
      rcases run_reached_cases env prior ⟨hg, hsk⟩ with ⟨hx, hrec⟩ | hall
      · exact Or.inl hrec
      · obtain ⟨h1, h2, h3, h4, h5, h6, h7⟩ := hall
        rw [run_success env prior hg hsk h1 h2 h3 h4 h5 h6 h7]
        exact Or.inr (Or.inr ⟨_, rfl, rfl, rfl⟩)

theorem localStr_priorOfRecord (r : Record) :
    localStr (priorOfRecord r) = pyStrip r.local_data_updated_at := rfl

theorem localStr_eq_of_trimmed (s : PriorState) (hs : TrimmedLocal s) :
    localStr s = s.local_data_updated_at.getD "" := hs

theorem trimmedLocal_step (s : PriorState) (e : RunEnv)
    (hs : TrimmedLocal s) (he : pyStrip e.run_finished = e.run_finished) :
    TrimmedLocal (stepState s e) := by
  unfold stepState
  rcases run_record_cases e s with h | ⟨r, h, hres, hloc⟩ | ⟨r, h, hres, hloc⟩
  · rw [h]
    exact hs
  · rw [h]
    show TrimmedLocal (priorOfRecord r)
    show pyStrip r.local_data_updated_at = r.local_data_updated_at
    rw [hloc]
    unfold localStr
    rw [hs]
    exact hs
  · rw [h]
    show TrimmedLocal (priorOfRecord r)
    show pyStrip r.local_data_updated_at = r.local_data_updated_at
    rw [hloc]
    exact he

theorem localStr_step_unchanged (s : PriorState) (e : RunEnv)
    (hs : TrimmedLocal s)
    (h : ∀ r, (run e s).record = some r → r.last_run_result ≠ "success") :
    localStr (stepState s e) = localStr s := by
  unfold stepState
  rcases run_record_cases e s with hrec | ⟨r, hrec, hres, hloc⟩ |
    ⟨r, hrec, hres, hloc⟩
  · rw [hrec]
  · rw [hrec]
    show localStr (priorOfRecord r) = localStr s
    rw [localStr_priorOfRecord, hloc]
    unfold localStr
    rw [hs]
    exact hs
  · exact absurd hres (h r hrec)

theorem localStr_step_mono (s : PriorState) (e : RunEnv)
    (hs : TrimmedLocal s) (he : pyStrip e.run_finished = e.run_finished)
    (hc : strLe (localStr s) e.run_finished = true) :
    strLe (localStr s) (localStr (stepState s e)) = true := by
  unfold stepState
  rcases run_record_cases e s with hrec | ⟨r, hrec, hres, hloc⟩ |
    ⟨r, hrec, hres, hloc⟩
  · rw [hrec]
    exact strLe_refl _
  · rw [hrec]
    show strLe (localStr s) (localStr (priorOfRecord r)) = true
    have heq : localStr (priorOfRecord r) = localStr s := by
      rw [localStr_priorOfRecord, hloc]
      unfold localStr
      rw [hs]
      exact hs
    rw [heq]
    exact strLe_refl _
  · rw [hrec]
    show strLe (localStr s) (localStr (priorOfRecord r)) = true
    have heq : localStr (priorOfRecord r) = e.run_finished := by
      rw [localStr_priorOfRecord, hloc]
      exact he
    rw [heq]
    exact hc

theorem monotoneStepFacts_holds (t : PriorState) (e : RunEnv)
    (ht : TrimmedLocal t) (he : pyStrip e.run_finished = e.run_finished) :
    MonotoneStepFacts t e := by
  refine ⟨?_, ?_, localStr_step_mono t e ht he, ?_⟩
  · intro r hrec hres
    exact localStr_step_unchanged t e ht
      (fun r' hrec' => by
        rw [hrec] at hrec'
        cases hrec'
        exact hres)
  · intro hrec
    exact localStr_step_unchanged t e ht
      (fun r' hrec' => by
        rw [hrec] at hrec'
        cases hrec')
  · intro hchanged
    rcases run_record_cases e t with hrec | ⟨r, hrec, hres, hloc⟩ |
      ⟨r, hrec, hres, hloc⟩
    · exact absurd (localStr_step_unchanged t e ht
        (fun r' hrec' => by
          rw [hrec] at hrec'
          cases hrec')) hchanged
    · exact absurd (localStr_step_unchanged t e ht
        (fun r' hrec' => by
          rw [hrec] at hrec'
          cases hrec'
          exact hres)) hchanged
    · exact ⟨r, hrec, hres⟩

theorem runTrace_mono (envs : List RunEnv) (s : PriorState)
    (hs : TrimmedLocal s)
    (henv : ∀ e ∈ envs, pyStrip e.run_finished = e.run_finished)
    (hclock : ClockOK s envs) :
    strLe (localStr s) (localStr (runTrace s envs)) = true := by
  induction envs generalizing s with
  | nil => exact strLe_refl _
  | cons e es ih =>
    obtain ⟨hc, hcs⟩ := hclock
    have he : pyStrip e.run_finished = e.run_finished :=
      henv e (List.mem_cons_self e es)
    have hstep := localStr_step_mono s e hs he hc
    have htrim := trimmedLocal_step s e hs he
    have hrest := ih (stepState s e) htrim
      (fun e' he' => henv e' (List.mem_cons_of_mem e he')) hcs
    exact strLe_trans _ _ _ hstep hrest

theorem nsDictOf_dset_obj (l : List (String × JValue)) (ns : String)
    (kvs : List (String × JValue)) :
    nsDictOf (dset l ns (.obj kvs)) ns = kvs := by
  unfold nsDictOf
  rw [dget_dset_self]

theorem nsDictOf_merge (fc : FileContent) (ns : String)
    (updates : List (String × JValue)) :
    nsDictOf (merge_state_namespace fc ns updates) ns
      = dupdate (read_state_namespace fc ns) updates := by
  unfold merge_state_namespace
  rw [nsDictOf_dset_obj, nsDictOf_mergedStateBase]
  rfl

/-- C1 counterexample: on a run whose schema application fails, the
program exits non-zero but persists NOTHING — there is no record with
`last_run_result = "failed"` (the claim asserts one is persisted). -/
theorem schema_failure_no_failed_record_cex :
    envSchemaFail.schema_ok = false ∧
    (run envSchemaFail priorKnown).exitCode = 1 ∧
    (run envSchemaFail priorKnown).record = none :=
  ⟨rfl, rfl, rfl⟩

/-- C1 (amended): for every run in which a step among schema application,
download, extraction, staged load, merge, or verification fails, the
program exits with a non-zero exit code WITHOUT persisting any provenance
record — `last_run_result` is not updated and `local_data_updated_at` is
left untouched, because `persist` is never reached. -/
theorem failure_exits_nonzero_without_record (env : RunEnv)
    (prior : PriorState) (h1 : reachesSteps env prior)
    (h2 : someStepFails env) :
    (run env prior).exitCode = 1 ∧ (run env prior).record = none := by
  rcases run_reached_cases env prior h1 with h | hall
  · exact h
  · exfalso
    obtain ⟨a1, a2, a3, a4, a5, a6, a7⟩ := hall
    rcases h2 with h | h | h | h | h | h | h
    · exact absurd a1 (by simp [h])
    · exact absurd a2 (by simp [h])
    · exact absurd a3 (by simp [h])
    · exact absurd a4 (by simp [h])
    · exact absurd a5 (by simp [h])
    · exact absurd a6 (by simp [h])
    · exact absurd a7 (by simp [h])

/-- C1 witness: the amended theorem applied to a concrete failing run. -/
theorem failure_exits_nonzero_without_record_witness :
    (run envSchemaFail priorKnown).exitCode = 1 ∧
    (run envSchemaFail priorKnown).record = none :=
  failure_exits_nonzero_without_record envSchemaFail priorKnown
    ⟨rfl, rfl⟩ (Or.inl rfl)

/-! ## Claim C2 -/

/-- C2 counterexample: with a stored prior entity tag `"abc "` (trailing
blank) and a probed entity tag `"abc"`, the code SKIPS (it strips the
stored value before comparing), while the claim's exact-string-equality
decision order says PROCEED. -/
theorem skip_decision_exact_equality_cex :
    (should_skip_import true remotePlainEtag false none priorPaddedEtag).1
      = true ∧
    claim_skip_decision true remotePlainEtag false none priorPaddedEtag
      = false ∧
    priorPaddedEtag.source_etag = some "abc " ∧
    remotePlainEtag.etag = "abc" :=
  ⟨rfl, rfl, rfl, rfl⟩

/-- C2 (amended): the skip decision follows exactly the claimed
first-match-wins order — disabled ⇒ proceed; entity-tag equality ⇒ skip;
last-modified equality ⇒ skip; local artifact digest equality ⇒ skip;
otherwise proceed — with equality being exact string equality AFTER the
stored prior values are coerced to strings and stripped of surrounding
whitespace; an empty or missing value on either side never matches. -/
theorem skip_decision_matches_spec_after_strip (skip_if_unchanged : Bool)
    (remote : RemoteMeta) (zip_exists : Bool) (local_sha : Option String)
    (prior : PriorState) :
    (should_skip_import skip_if_unchanged remote zip_exists local_sha
      prior).1
      = claim_skip_decision skip_if_unchanged remote zip_exists local_sha
          (stripPrior prior) := by
  unfold should_skip_import claim_skip_decision stripPrior
  dsimp only
  cases skip_if_unchanged with
  | false => rfl
  | true =>
    by_cases h1 : (remote.etag != "" &&
        pyStrip (prior.source_etag.getD "") != "" &&
        remote.etag == pyStrip (prior.source_etag.getD "")) = true
    · simp [h1]
    · rw [Bool.not_eq_true] at h1
      by_cases h2 : (remote.last_modified != "" &&
          pyStrip (prior.source_last_modified_at.getD "") != "" &&
          remote.last_modified
            == pyStrip (prior.source_last_modified_at.getD "")) = true
      · simp [h1, h2]
      · rw [Bool.not_eq_true] at h2
        by_cases h3 : (zip_exists &&
            pyStrip (prior.source_zip_sha256.getD "") != "" &&
            sha_matches local_sha
              (pyStrip (prior.source_zip_sha256.getD ""))) = true
        · simp [h1, h2, h3]
        · rw [Bool.not_eq_true] at h3
          simp [h1, h2, h3]

/-! ## Claim C3 -/

/-- C3: across every sequence of runs (from a stored value free of
surrounding whitespace — true of everything the importer writes — with
ISO timestamps and a clock that never runs backwards), the persisted
`local_data_updated_at` is monotonically non-decreasing; and for every
single run, the value carries forward unchanged whenever the persisted
result is not `success` (or nothing is persisted at all), and whenever it
moved, the run's persisted result was `success`. -/
theorem local_data_updated_monotone (s : PriorState) (envs : List RunEnv)
    (hs : TrimmedLocal s)
    (henv : ∀ e ∈ envs, pyStrip e.run_finished = e.run_finished)
    (hclock : ClockOK s envs) :
    strLe (localStr s) (localStr (runTrace s envs)) = true ∧
    (∀ t e, TrimmedLocal t → pyStrip e.run_finished = e.run_finished →
      MonotoneStepFacts t e) :=
  ⟨runTrace_mono envs s hs henv hclock,
   fun t e ht he => monotoneStepFacts_holds t e ht he⟩

/-- C3 witness: the monotonicity theorem applied to the empty prior state
and one concrete healthy run. -/
theorem local_data_updated_monotone_witness :
    strLe (localStr ({} : PriorState))
      (localStr (runTrace {} [envOk])) = true ∧
    (∀ t e, TrimmedLocal t → pyStrip e.run_finished = e.run_finished →
      MonotoneStepFacts t e) :=
  local_data_updated_monotone {} [envOk] rfl
    (fun e he => by
      rw [List.mem_singleton] at he
      subst he
      decide)
    ⟨by decide, trivial⟩

/-! ## Claim C4 -/

/-- C4: when locking is enabled and the non-blocking acquisition fails,
the run exits 0, persists `last_run_result = "skipped_locked"`, leaves
`local_data_updated_at` unchanged, and starts no schema application,
download, load, or merge. -/
theorem lock_held_skips_cleanly (env : RunEnv) (prior : PriorState)
    (h1 : env.lock_flag = true) (h2 : env.lock_acquired = false) :
    (run env prior).exitCode = 0 ∧
    (run env prior).did_schema = false ∧
    (run env prior).did_download = false ∧
    (run env prior).did_load = false ∧
    (run env prior).did_merge = false ∧
    ∃ r, (run env prior).record = some r ∧
      r.last_run_result = "skipped_locked" ∧
      r.local_data_updated_at = localStr prior ∧
      (TrimmedLocal prior →
        r.local_data_updated_at = prior.local_data_updated_at.getD "") := by
  have hg : (env.lock_flag && !env.lock_acquired) = true := by
    rw [h1, h2]
    rfl
  rw [run_lock_held env prior hg]
  exact ⟨rfl, rfl, rfl, rfl, rfl, _, rfl, rfl, rfl, fun ht => ht⟩

/-- C4 witness: the lock-held theorem applied to a concrete held-lock
run over a known prior record. -/
theorem lock_held_skips_cleanly_witness :
    (run envLockHeld priorKnown).exitCode = 0 ∧
    (run envLockHeld priorKnown).did_schema = false ∧
    (run envLockHeld priorKnown).did_download = false ∧
    (run envLockHeld priorKnown).did_load = false ∧
    (run envLockHeld priorKnown).did_merge = false ∧
    ∃ r, (run envLockHeld priorKnown).record = some r ∧
      r.last_run_result = "skipped_locked" ∧
      r.local_data_updated_at = localStr priorKnown ∧
      (TrimmedLocal priorKnown →
        r.local_data_updated_at
          = priorKnown.local_data_updated_at.getD "") :=
  lock_held_skips_cleanly envLockHeld priorKnown rfl rfl

/-! ## Claim C5 -/

/-- C5 counterexample: a run that reaches the fetch step while a complete
previous artifact already sits at the destination above any size floor
STILL downloads the body — `download_zip` has no existence or size check,
while the claim says the download is skipped entirely. -/
theorem download_not_skipped_cex :
    envZipPresent.zip_exists = true ∧
    envZipPresent.zip_exceeds_size_floor = true ∧
    (run envZipPresent priorKnown).did_download = true :=
  ⟨rfl, rfl, rfl⟩

/-- C5 (amended): every run that reaches the fetch step downloads the
body unconditionally (streaming to a temp file, atomically renamed); a
pre-existing artifact at the destination, of any size, never causes the
download to be skipped. -/
theorem fetch_always_downloads (env : RunEnv) (prior : PriorState)
    (h1 : reachesSteps env prior) (hs : env.schema_ok = true) :
    (run env prior).did_download = true := by
  obtain ⟨hg, hsk⟩ := h1
  unfold run
  rw [hg, hsk, hs]
  cases hd : env.download_ok with
  | false => rfl
  | true =>
    cases h3 : env.extract_ok with
    | false => rfl
    | true =>
      cases h4 : env.dat_files_present with
      | false => rfl
      | true =>
        cases h5 : env.load_ok with
        | false => rfl
        | true =>
          cases h6 : env.merge_ok with
          | false => rfl
          | true =>
            cases h7 : env.verify_ok with
            | false => rfl
            | true => rfl

/-- C5 witness: the amended theorem applied to a concrete healthy run. -/
theorem fetch_always_downloads_witness :
    (run envOk {}).did_download = true :=
  fetch_always_downloads envOk {} ⟨rfl, rfl⟩ rfl

/-! ## Claim C6 -/

/-- C6 counterexample: the entity staging load stores an empty
`entity_name` source field as the EMPTY STRING, not as an absent value —
the generic `LOAD DATA` branch used for `stg_en` has no `NULLIF`
normalization. -/
theorem entity_load_keeps_empty_string_cex :
    fld enRowEmptyName 8 = "" ∧
    (load_stg_en_row enRowEmptyName).entity_name = some "" ∧
    (load_stg_en_row enRowEmptyName).entity_name ≠ none :=
  ⟨rfl, rfl, by decide⟩

/-- C6 (amended): for the header and classification kinds every mapped
staging column is absent exactly when the source field is empty
(`NULLIF(@fi,'')`), but the entity kind stores every column verbatim at
load time — an empty field stays an empty string; normalization of the
entity columns to absent values happens only later, at merge time. -/
theorem load_nullif_header_class_raw_entity (row : List String) :
    ((load_stg_hd_row row).record_type = none ↔ fld row 1 = "") ∧
    ((load_stg_hd_row row).unique_system_identifier = none
      ↔ fld row 2 = "") ∧
    ((load_stg_hd_row row).call_sign = none ↔ fld row 5 = "") ∧
    ((load_stg_hd_row row).license_status = none ↔ fld row 6 = "") ∧
    ((load_stg_hd_row row).grant_date = none ↔ fld row 8 = "") ∧
    ((load_stg_hd_row row).expired_date = none ↔ fld row 9 = "") ∧
    ((load_stg_hd_row row).last_action_date = none ↔ fld row 10 = "") ∧
    ((load_stg_am_row row).record_type = none ↔ fld row 1 = "") ∧
    ((load_stg_am_row row).unique_system_identifier = none
      ↔ fld row 2 = "") ∧
    ((load_stg_am_row row).uls_file_number = none ↔ fld row 3 = "") ∧
    ((load_stg_am_row row).ebf_number = none ↔ fld row 4 = "") ∧
    ((load_stg_am_row row).call_sign = none ↔ fld row 5 = "") ∧
    ((load_stg_am_row row).operator_class = none ↔ fld row 6 = "") ∧
    (load_stg_en_row row).record_type = some (fld row 1) ∧
    (load_stg_en_row row).unique_system_identifier = some (fld row 2) ∧
    (load_stg_en_row row).uls_file_number = some (fld row 3) ∧
    (load_stg_en_row row).ebf_number = some (fld row 4) ∧
    (load_stg_en_row row).call_sign = some (fld row 5) ∧
    (load_stg_en_row row).entity_type = some (fld row 6) ∧
    (load_stg_en_row row).licensee_id = some (fld row 7) ∧
    (load_stg_en_row row).entity_name = some (fld row 8) ∧
    (load_stg_en_row row).first_name = some (fld row 9) ∧
    (load_stg_en_row row).mi = some (fld row 10) ∧
    (load_stg_en_row row).last_name = some (fld row 11) ∧
    (load_stg_en_row row).suffix = some (fld row 12) ∧
    (load_stg_en_row row).phone = some (fld row 13) ∧
    (load_stg_en_row row).fax = some (fld row 14) ∧
    (load_stg_en_row row).email = some (fld row 15) ∧
    (load_stg_en_row row).street_address = some (fld row 16) ∧
    (load_stg_en_row row).city = some (fld row 17) ∧
    (load_stg_en_row row).state = some (fld row 18) ∧
    (load_stg_en_row row).zip_code = some (fld row 19) ∧
    (load_stg_en_row row).po_box = some (fld row 20) ∧
    (load_stg_en_row row).attention_line = some (fld row 21) ∧
    (load_stg_en_row row).sgin = some (fld row 22) ∧
    (load_stg_en_row row).frn = some (fld row 23) :=
  ⟨nullif_eq_none _, nullif_eq_none _, nullif_eq_none _, nullif_eq_none _,
   nullif_eq_none _, nullif_eq_none _, nullif_eq_none _, nullif_eq_none _,
   nullif_eq_none _, nullif_eq_none _, nullif_eq_none _, nullif_eq_none _,
   nullif_eq_none _, rfl, rfl, rfl, rfl, rfl, rfl, rfl, rfl, rfl, rfl,
   rfl, rfl, rfl, rfl, rfl, rfl, rfl, rfl, rfl, rfl, rfl, rfl, rfl⟩

/-! ## Claim C7 -/

/-- C7: the remote-metadata probe is total — a raised network or
response-parse error, and any HTTP status outside the accepted range,
yields the zero-value `RemoteMeta` (empty entity tag, empty
last-modified, content length 0) instead of propagating a failure, so the
pipeline can always continue to a full download. -/
theorem head_remote_meta_total_zero_on_failure (status : Nat)
    (etag last_mod clen : Option String)
    (h : status < 200 ∨ 400 ≤ status) :
    head_remote_meta .failure
      = { etag := "", last_modified := "", content_length := 0 } ∧
    head_remote_meta (.response status etag last_mod clen)
      = { etag := "", last_modified := "", content_length := 0 } := by
  refine ⟨rfl, ?_⟩
  have hb : (status < 200 || status ≥ 400) = true := by
    simp only [Bool.or_eq_true, decide_eq_true_eq]
    exact h
  dsimp only [head_remote_meta]
  rw [hb]
  rfl

/-- C7 witness: the probe theorem applied to a concrete 500 response
carrying headers. -/
theorem head_remote_meta_total_zero_on_failure_witness :
    head_remote_meta .failure
      = { etag := "", last_modified := "", content_length := 0 } ∧
    head_remote_meta (.response 500 (some "W/9") (some "x") (some "10"))
      = { etag := "", last_modified := "", content_length := 0 } :=
  head_remote_meta_total_zero_on_failure 500 (some "W/9") (some "x")
    (some "10") (Or.inr (by decide))

/-! ## Claim C9 -/

/-- C9: reading prior state is total — loading the state or marker file
yields the empty record when the file is missing, unreadable, empty, or
malformed, or holds a non-object JSON value; and reading a namespace
whose stored value is absent or not an object also yields the empty
record. -/
theorem prior_state_read_total :
    (load_json .missing = [] ∧ load_json .unreadable = [] ∧
     load_json .textEmpty = [] ∧ load_json .malformed = []) ∧
    (∀ v : JValue, v.isObj = false → load_json (.json v) = []) ∧
    (∀ fc ns, dget (load_json fc) ns = none →
      read_state_namespace fc ns = []) ∧
    (∀ fc ns v, dget (load_json fc) ns = some v → v.isObj = false →
      read_state_namespace fc ns = []) := by
  refine ⟨⟨rfl, rfl, rfl, rfl⟩, ?_, ?_, ?_⟩
  · intro v hv
    cases v with
    | null => rfl
    | bool b => rfl
    | num n => rfl
    | str s => rfl
    | arr xs => rfl
    | obj kvs => simp [JValue.isObj] at hv
  · intro fc ns h
    unfold read_state_namespace nsDictOf
    rw [h]
  · intro fc ns v h hv
    unfold read_state_namespace nsDictOf
    rw [h]
    cases v with
    | null => rfl
    | bool b => rfl
    | num n => rfl
    | str s => rfl
    | arr xs => rfl
    | obj kvs => simp [JValue.isObj] at hv

/-- C9 witness: the totality theorem applied to a state file whose
`uls_import` namespace holds a string instead of an object. -/
theorem prior_state_read_total_witness :
    read_state_namespace (.json (.obj [("uls_import", .str "oops")]))
      "uls_import" = [] :=
  prior_state_read_total.2.2.2
    (.json (.obj [("uls_import", .str "oops")])) "uls_import"
    (.str "oops") rfl rfl

/-! ## Claim C10 -/

/-- C10: persisting into the `uls_import` namespace is frame-preserving —
every other top-level key of the state file keeps its value, and inside
the namespace every key not mentioned by the update payload keeps its
value. -/
theorem persist_preserves_other_state (fc : FileContent)
    (updates : List (String × JValue)) (k : String) :
    (k ≠ "uls_import" →
      dget (merge_state_namespace fc "uls_import" updates) k
        = dget (load_json fc) k) ∧
    ((∀ p ∈ updates, p.1 ≠ k) →
      dget (read_state_namespace
          (.json (.obj (merge_state_namespace fc "uls_import" updates)))
          "uls_import") k
        = dget (read_state_namespace fc "uls_import") k) := by
  constructor
  · intro hk
    unfold merge_state_namespace
    rw [dget_dset_ne _ _ _ _ hk]
    exact dget_mergedStateBase_ne _ _ _ hk
  · intro hupd
    have h1 : read_state_namespace
        (.json (.obj (merge_state_namespace fc "uls_import" updates)))
        "uls_import"
        = dupdate (read_state_namespace fc "uls_import") updates :=
      nsDictOf_merge fc "uls_import" updates
    rw [h1]
    exact dget_dupdate_not_mem _ updates k hupd

/-- C10 witness: the frame theorem applied to a concrete state file with
a foreign namespace and an extra key in the importer's namespace. -/
theorem persist_preserves_other_state_witness :
    dget (merge_state_namespace stateFileKnown "uls_import" updatesKnown)
      "other_ns" = dget (load_json stateFileKnown) "other_ns" ∧
    dget (read_state_namespace
        (.json (.obj (merge_state_namespace stateFileKnown "uls_import"
          updatesKnown))) "uls_import") "extra_key"
      = dget (read_state_namespace stateFileKnown "uls_import")
          "extra_key" :=
  ⟨(persist_preserves_other_state stateFileKnown updatesKnown
      "other_ns").1 (by decide),
   (persist_preserves_other_state stateFileKnown updatesKnown
      "extra_key").2 (by decide)⟩

/-! ## Claim C8 -/

end ARCS
